import Mathlib

/- Verification of a Flask service (src/main.py) that accepts a video URL over
HTTP, downloads the media with the yt-dlp extraction tool, uploads it to a
Google Drive folder, makes it public and returns a shareable link.

The embedding is shallow: every function of main.py is translated into a Lean
function over explicit state.  The three external systems (the filesystem, the
extraction tool, the Google Drive / OAuth APIs) are modelled as oracle
environments whose fields fix the outcome of each external call, and every
function additionally returns the list of external effects it performed, so
that claims of the form "X is never invoked" become statements about that
trace. -/

namespace ExtBackend

/-! ## Python string primitives used by the handler (lines 89-91, 101) -/

/-- A filename, modelled as its list of characters. -/
abbrev Path := List Char

/-- Python `s.endswith(suf)`. -/
def pyEndsWith (s suf : Path) : Bool := decide (suf <:+ s)

/-- Python `s.rsplit(".", 1)[0]`: everything before the last dot, or the whole
string when it has no dot. -/
def rsplitHead (s : Path) : Path :=
  match s.reverse.dropWhile (fun c => !(c == '.')) with
  | [] => s
  | _ :: rest => rest.reverse

/-- The characters of the literal ".mp4" (main.py line 90). -/
def mp4Ext : Path := ['.', 'm', 'p', '4']

/-- Lines 90-91 of main.py: `if not filename.endswith(".mp4"): filename =
filename.rsplit(".", 1)[0] + ".mp4"`. -/
def normalizeFilename (f : Path) : Path :=
  if pyEndsWith f mp4Ext then f else rsplitHead f ++ mp4Ext

/-- Python `os.path.basename`: everything after the last slash. -/
def basename (s : Path) : Path :=
  (s.reverse.takeWhile (fun c => !(c == '/'))).reverse

theorem pyEndsWith_append (t suf : Path) : pyEndsWith (t ++ suf) suf = true := by
  simp [pyEndsWith]

theorem pyEndsWith_exists {s suf : Path} (h : pyEndsWith s suf = true) :
    ∃ t, s = t ++ suf := by
  have hs : suf <:+ s := of_decide_eq_true h
  obtain ⟨t, ht⟩ := hs
  exact ⟨t, ht.symm⟩

theorem takeWhile_append_all (p : Char → Bool) (xs ys : List Char)
    (h : ∀ x ∈ xs, p x = true) :
    (xs ++ ys).takeWhile p = xs ++ ys.takeWhile p := by
  induction xs with
  | nil => simp
  | cons a l ih =>
      have ha : p a = true := h a (by simp)
      simp [List.takeWhile, ha]
      exact ih (fun x hx => h x (by simp [hx]))

theorem basename_append_mp4 (t : Path) :
    pyEndsWith (basename (t ++ mp4Ext)) mp4Ext = true := by
  have hall : ∀ x ∈ mp4Ext.reverse, (fun c => !(c == '/')) x = true := by decide
  have h1 : basename (t ++ mp4Ext)
      = (t.reverse.takeWhile (fun c => !(c == '/'))).reverse ++ mp4Ext := by
    unfold basename
    rw [List.reverse_append, takeWhile_append_all _ _ _ hall, List.reverse_append,
      List.reverse_reverse]
  rw [h1]
  exact pyEndsWith_append _ _

theorem normalizeFilename_endsWith (f : Path) :
    pyEndsWith (normalizeFilename f) mp4Ext = true := by
  unfold normalizeFilename
  by_cases h : pyEndsWith f mp4Ext = true
  · simp [h]
  · simp [h, pyEndsWith_append]

theorem basename_normalizeFilename_endsWith (f : Path) :
    pyEndsWith (basename (normalizeFilename f)) mp4Ext = true := by
  obtain ⟨t, ht⟩ := pyEndsWith_exists (normalizeFilename_endsWith f)
  rw [ht]
  exact basename_append_mp4 t

/-! ## External effects

Each operation against an external system is recorded as one trace entry. -/

/-- One observable call to an external system. -/
inductive Effect where
  /-- `ydl.extract_info(url, download=True)` (line 88). -/
  | extractInfo (url : String)
  /-- `creds.refresh(Request())` (line 36). -/
  | refreshCred
  /-- `os.getenv("GOOGLE_CREDENTIALS")` (line 39). -/
  | readBootstrapSecret
  /-- `flow.run_local_server(port=0)` (line 47): the interactive flow. -/
  | runFlow
  /-- `pickle.dump(creds, token)` into token.pickle (line 51). -/
  | persistToken
  /-- `service.files().list(q=...)` for a folder by name (line 58). -/
  | folderList (name : String)
  /-- `service.files().create(body=folder_metadata)` (line 65). -/
  | folderCreate (name : String)
  /-- the resumable `service.files().create(media_body=...)` upload (107-115). -/
  | uploadCreate (name : Path) (folderId : Nat)
  /-- `service.permissions().create(fileId=...)` (lines 131-134). -/
  | permissionCreate (fileId : String)
  /-- `os.remove(filename)` (lines 139 and 144). -/
  | removeLocal (path : Path)
  /-- `time.sleep(seconds)` (line 143). -/
  | sleep (seconds : Nat)
deriving DecidableEq

/-! ## Credential Store: `get_gdrive_service` (main.py lines 27-53) -/

/-- A deserialized OAuth credential as the code observes it: `creds.valid`,
`creds.expired` and the truthiness of `creds.refresh_token`. -/
structure Cred where
  valid : Bool
  expired : Bool
  refresh_token : Bool
deriving DecidableEq

/-- Oracle for the auth flow: contents of `token.pickle` (if the file exists),
the `GOOGLE_CREDENTIALS` environment variable, and the outcomes of the two
external calls that can produce a credential.  `Except.error e` means the call
raised an exception with message `e`. -/
structure AuthEnv where
  tokenPickle : Option Cred
  googleCredentials : Option String
  refreshResult : Except String Cred
  flowResult : Except String Cred

/-- What `get_gdrive_service` produces: the service (wrapping its credential)
or the raised exception, the final contents of `token.pickle`, and the trace of
external calls made. -/
structure AuthResult where
  service : Except String Cred
  tokenFile : Option Cred
  trace : List Effect

/-- Lines 38-47 and 50-51: the re-acquisition branch.  Reads
`GOOGLE_CREDENTIALS`, raising when it is absent; otherwise runs the
interactive flow and, on success, persists the new credential. -/
def acquire (env : AuthEnv) (old : Option Cred) : AuthResult :=
  match env.googleCredentials with
  | none =>
      { service := Except.error "❌ GOOGLE_CREDENTIALS not found in environment variables",
        tokenFile := old, trace := [Effect.readBootstrapSecret] }
  | some _ =>
      match env.flowResult with
      | Except.ok c2 =>
          { service := Except.ok c2, tokenFile := some c2,
            trace := [Effect.readBootstrapSecret, Effect.runFlow, Effect.persistToken] }
      | Except.error e =>
          { service := Except.error e, tokenFile := old,
            trace := [Effect.readBootstrapSecret, Effect.runFlow] }

/-- main.py lines 27-53.  Loads `token.pickle` if present; if the credential is
missing or invalid, refreshes when expired with a refresh token (persisting the
refreshed credential), otherwise re-acquires via `acquire`; a valid cached
credential is returned unchanged.  An exception raised by `creds.refresh`
propagates: there is no try/except around line 36. -/
def get_gdrive_service (env : AuthEnv) : AuthResult :=
  match env.tokenPickle with
  | none => acquire env none
  | some c =>
      if c.valid then
        { service := Except.ok c, tokenFile := some c, trace := [] }
      else if c.expired && c.refresh_token then
        match env.refreshResult with
        | Except.ok c2 =>
            { service := Except.ok c2, tokenFile := some c2,
              trace := [Effect.refreshCred, Effect.persistToken] }
        | Except.error e =>
            { service := Except.error e, tokenFile := some c,
              trace := [Effect.refreshCred] }
      else acquire env (some c)

/-! ## Folder Resolver: `get_or_create_folder` (main.py lines 55-66) -/

/-- A Drive folder object as the query observes it. -/
structure Folder where
  id : Nat
  name : String
  trashed : Bool
deriving DecidableEq

/-- A Drive file object created by the upload. -/
structure RemoteObj where
  id : String
  name : Path
  parent : Nat
deriving DecidableEq

/-- The provider's state: folders in its default listing order, a counter
supplying fresh folder identifiers, and the uploaded file objects. -/
structure DriveState where
  folders : List Folder
  nextId : Nat
  objects : List RemoteObj
deriving DecidableEq

/-- The provider-side evaluation of the query on line 57: first folder with
exactly the requested name that is not trashed, in default listing order. -/
def findFolder (s : DriveState) (folder_name : String) : Option Folder :=
  s.folders.find? (fun f => f.name == folder_name && !f.trashed)

/-- main.py lines 55-66: return the first matching folder's id, or create a
folder with that name and return the fresh id.  Returns the id, the provider
state after the call, and the trace. -/
def get_or_create_folder (s : DriveState) (folder_name : String) :
    Nat × DriveState × List Effect :=
  match findFolder s folder_name with
  | some f => (f.id, s, [Effect.folderList folder_name])
  | none =>
      (s.nextId,
       { s with
          folders := s.folders ++ [{ id := s.nextId, name := folder_name, trashed := false }],
          nextId := s.nextId + 1 },
       [Effect.folderList folder_name, Effect.folderCreate folder_name])

/-! ## Request Handler: `video_to_drive` (main.py lines 68-154) -/

/-- Python `data.get("url")` on the parsed JSON object, modelled as an
association list (first binding wins, as in a dict). -/
def pyGet (d : List (String × String)) (k : String) : Option String :=
  (d.find? (fun kv => kv.1 == k)).map (fun kv => kv.2)

/-- Python truthiness test `not url` on line 75: `None` and the empty string
are falsy. -/
def strFalsy : Option String → Bool
  | none => true
  | some s => s == ""

/-- Outcome of one `os.remove` call that did not succeed: a `PermissionError`
(the only class caught on line 141) or any other exception. -/
inductive RemoveErr where
  | perm (msg : String)
  | other (msg : String)
deriving DecidableEq

/-- `str(e)` for a remove failure. -/
def removeMsg : RemoveErr → String
  | RemoveErr.perm m => m
  | RemoveErr.other m => m

/-- The completed upload response: the fields requested on line 110. -/
structure DriveResp where
  id : String
  webViewLink : String
deriving DecidableEq

/-- A JSON body produced by `jsonify`: either the error shape
`{"error": msg}` or the success shape of lines 146-151. -/
inductive RespBody where
  | err (msg : String)
  | ok (file_id : String) (file_name : Path) (public_link : String)
deriving DecidableEq

/-- What the route produces: an HTTP response, or an exception raised outside
the try/except (which Flask, not the handler, turns into a generic error). -/
inductive HResult where
  | resp (status : Nat) (body : RespBody)
  | unhandled (msg : String)
deriving DecidableEq

/-- Oracle for one request.  `body` is `request.get_json()`: `none` stands for
a parsed value with no `get` method (the JSON literal `null`), `some d` for an
object.  `extract` is the extraction tool: the prepared filename or the raised
exception.  `fs0` is the filesystem before the request and `downloadWrites`
the files the tool's invocation leaves behind.  `uploadOutcome` is the net
result of the resumable-upload loop of lines 113-115 (completion with a
response, or an exception at some `next_chunk`).  `permissionOutcome` is
`some e` when `permissions().create(...).execute()` raises `e`.  `remove1` and
`remove2` are the outcomes of the first and second `os.remove` attempts
(`none` = success). -/
structure ReqEnv where
  body : Option (List (String × String))
  extract : String → Except String Path
  fs0 : List Path
  downloadWrites : List Path
  auth : AuthEnv
  drive : DriveState
  uploadOutcome : Except String DriveResp
  permissionOutcome : Option String
  remove1 : Option RemoveErr
  remove2 : Option RemoveErr

/-- Result of a request: the HTTP-level result, the filesystem and provider
state after the request, and the trace of external calls. -/
structure Outcome where
  result : HResult
  fs : List Path
  drive : DriveState
  trace : List Effect

/-- The success payload of lines 146-151: `file_id` from `response.get("id")`,
`file_name` from `os.path.basename(filename)`, `public_link` from
`response.get("webViewLink")`. -/
def successBody (r : DriveResp) (filename : Path) : RespBody :=
  RespBody.ok r.id (basename filename) r.webViewLink

/-- main.py lines 68-154, the `/download` route.

* Line 71-72: `data.get("url")` runs before the try/except; when the parsed
  body has no `get` method this raises out of the handler (`HResult.unhandled`).
* Line 75-76: falsy `url` returns 400 before anything external happens.
* Lines 87-91: the extraction tool runs; its exception is caught by the outer
  `except` (500).  The prepared filename is normalized to `.mp4`.
* Lines 93-94: missing output file returns 500 before any Drive call.
* Lines 97-98: auth, then folder resolution, on the live provider state.
* Lines 107-118: the chunked upload; an exception reaches the outer `except`.
  Lines 122-128 only close local handles and print, with no modelled effect.
* Lines 131-134: the make-public call; its exception reaches the outer
  `except`, after the remote object already exists.
* Lines 136-144: cleanup; a `PermissionError` triggers `time.sleep(2)` and one
  retry whose failure reaches the outer `except`; any other remove exception
  reaches the outer `except` directly.
* Lines 146-151: the 200 response.  Line 153-154: `except Exception` → 500. -/
def video_to_drive (env : ReqEnv) : Outcome :=
  match env.body with
  | none =>
      { result := HResult.unhandled "AttributeError: NoneType object has no attribute get",
        fs := env.fs0, drive := env.drive, trace := [] }
  | some data =>
      let url := pyGet data "url"
      if strFalsy url then
        { result := HResult.resp 400 (RespBody.err "❌ YouTube URL required"),
          fs := env.fs0, drive := env.drive, trace := [] }
      else
        let u := url.getD ""
        let fs1 := env.fs0 ++ env.downloadWrites
        match env.extract u with
        | Except.error e =>
            { result := HResult.resp 500 (RespBody.err e), fs := fs1,
              drive := env.drive, trace := [Effect.extractInfo u] }
        | Except.ok rawName =>
            let filename := normalizeFilename rawName
            if filename ∈ fs1 then
              let ar := get_gdrive_service env.auth
              match ar.service with
              | Except.error e =>
                  { result := HResult.resp 500 (RespBody.err e), fs := fs1,
                    drive := env.drive, trace := Effect.extractInfo u :: ar.trace }
              | Except.ok _creds =>
                  let fr := get_or_create_folder env.drive "YouTubeSong"
                  let folder_id := fr.1
                  let drive1 := fr.2.1
                  let tr1 := Effect.extractInfo u :: ar.trace ++ fr.2.2
                  match env.uploadOutcome with
                  | Except.error e =>
                      { result := HResult.resp 500 (RespBody.err e), fs := fs1,
                        drive := drive1,
                        trace := tr1 ++ [Effect.uploadCreate (basename filename) folder_id] }
                  | Except.ok r =>
                      let drive2 :=
                        { drive1 with
                            objects := drive1.objects ++
                              [{ id := r.id, name := basename filename, parent := folder_id }] }
                      let tr2 := tr1 ++ [Effect.uploadCreate (basename filename) folder_id]
                      match env.permissionOutcome with
                      | some e =>
                          { result := HResult.resp 500 (RespBody.err e), fs := fs1,
                            drive := drive2,
                            trace := tr2 ++ [Effect.permissionCreate r.id] }
                      | none =>
                          let tr3 := tr2 ++ [Effect.permissionCreate r.id]
                          if filename ∈ fs1 then
                            match env.remove1 with
                            | none =>
                                { result := HResult.resp 200 (successBody r filename),
                                  fs := fs1.filter (fun p => !(p == filename)),
                                  drive := drive2,
                                  trace := tr3 ++ [Effect.removeLocal filename] }
                            | some (RemoveErr.perm _) =>
                                match env.remove2 with
                                | none =>
                                    { result := HResult.resp 200 (successBody r filename),
                                      fs := fs1.filter (fun p => !(p == filename)),
                                      drive := drive2,
                                      trace := tr3 ++ [Effect.removeLocal filename,
                                        Effect.sleep 2, Effect.removeLocal filename] }
                                | some e2 =>
                                    { result := HResult.resp 500 (RespBody.err (removeMsg e2)),
                                      fs := fs1, drive := drive2,
                                      trace := tr3 ++ [Effect.removeLocal filename,
                                        Effect.sleep 2, Effect.removeLocal filename] }
                            | some (RemoveErr.other m) =>
                                { result := HResult.resp 500 (RespBody.err m), fs := fs1,
                                  drive := drive2,
                                  trace := tr3 ++ [Effect.removeLocal filename] }
                          else
                            { result := HResult.resp 200 (successBody r filename),
                              fs := fs1, drive := drive2, trace := tr3 }
            else
              { result := HResult.resp 500 (RespBody.err "File not found after download"),
                fs := fs1, drive := env.drive, trace := [Effect.extractInfo u] }

/-- The local path the handler computes on lines 88-91 for a request, when the
request gets that far: `none` when validation fails, the body is unusable, or
the extraction tool raises. -/
def downloadedPath (env : ReqEnv) : Option Path :=
  match env.body with
  | none => none
  | some data =>
      let url := pyGet data "url"
      if strFalsy url then none
      else
        match env.extract (url.getD "") with
        | Except.error _ => none
        | Except.ok rawName => some (normalizeFilename rawName)

/-! ## Concrete fixtures used by witnesses and counterexamples -/

/-- "song.mp4" as a path. -/
def songPath : Path := ['s', 'o', 'n', 'g', '.', 'm', 'p', '4']

/-- An auth oracle whose cached credential is valid, so that
`get_gdrive_service` succeeds without any external call. -/
def authOkEnv : AuthEnv :=
  { tokenPickle := some { valid := true, expired := false, refresh_token := false },
    googleCredentials := none,
    refreshResult := Except.error "unused",
    flowResult := Except.error "unused" }

/-- An empty provider state. -/
def emptyDrive : DriveState := { folders := [], nextId := 0, objects := [] }

/-! ## Claims -/

/-- C1: for every POST /download request whose body parses to an object whose
`url` field is missing or empty, the handler returns HTTP 400 with the error
message of line 76, and its effect trace is empty — in particular the
extraction tool is never invoked. -/
theorem c1_missing_url_400_no_download
    (data : List (String × String)) (extract : String → Except String Path)
    (fs0 dw : List Path) (auth : AuthEnv) (drive : DriveState)
    (up : Except String DriveResp) (perm : Option String)
    (r1 r2 : Option RemoveErr)
    (h : strFalsy (pyGet data "url") = true) :
    (video_to_drive ⟨some data, extract, fs0, dw, auth, drive, up, perm, r1, r2⟩).result
        = HResult.resp 400 (RespBody.err "❌ YouTube URL required") ∧
      (video_to_drive ⟨some data, extract, fs0, dw, auth, drive, up, perm, r1, r2⟩).trace
        = [] := by
  simp [video_to_drive, h]

/-- C1 witness: the body `{}` (no `url` key) satisfies the hypothesis and gets
the 400 response with an empty trace. -/
theorem c1_missing_url_400_no_download_witness :
    strFalsy (pyGet [] "url") = true ∧
      (video_to_drive ⟨some [], fun _ => Except.error "unused", [], [], authOkEnv,
          emptyDrive, Except.error "unused", none, none, none⟩).result
        = HResult.resp 400 (RespBody.err "❌ YouTube URL required") :=
  ⟨by decide,
   (c1_missing_url_400_no_download [] (fun _ => Except.error "unused") [] [] authOkEnv
      emptyDrive (Except.error "unused") none none none (by decide)).1⟩

/-- C2: whenever the request passes validation and the extraction step, but no
file exists at the computed (normalized) local path, the handler returns the
500 download-stage error of line 94, the provider state is untouched, and the
trace holds only the extraction call — no authentication, folder resolution or
upload operation is performed. -/
theorem c2_missing_file_download_error
    (data : List (String × String)) (u : String) (raw : Path)
    (extract : String → Except String Path)
    (fs0 dw : List Path) (auth : AuthEnv) (drive : DriveState)
    (up : Except String DriveResp) (perm : Option String)
    (r1 r2 : Option RemoveErr)
    (hu : pyGet data "url" = some u) (hne : (u == "") = false)
    (hext : extract u = Except.ok raw)
    (hmem : normalizeFilename raw ∉ fs0 ++ dw) :
    (video_to_drive ⟨some data, extract, fs0, dw, auth, drive, up, perm, r1, r2⟩).result
        = HResult.resp 500 (RespBody.err "File not found after download") ∧
      (video_to_drive ⟨some data, extract, fs0, dw, auth, drive, up, perm, r1, r2⟩).trace
        = [Effect.extractInfo u] ∧
      (video_to_drive ⟨some data, extract, fs0, dw, auth, drive, up, perm, r1, r2⟩).drive
        = drive := by
  simp [video_to_drive, hu, strFalsy, hne, hext, hmem]

/-- C2 witness: a request for url "x" whose extraction reports "song.mp4" while
the filesystem stays empty hits the download-stage error with a one-call
trace. -/
theorem c2_missing_file_download_error_witness :
    pyGet [("url", "x")] "url" = some "x" ∧
      (("x" == "") = false) ∧
      ((fun _ => (Except.ok songPath : Except String Path)) "x" = Except.ok songPath) ∧
      normalizeFilename songPath ∉ ([] ++ [] : List Path) ∧
      (video_to_drive ⟨some [("url", "x")], fun _ => Except.ok songPath, [], [],
          authOkEnv, emptyDrive, Except.error "unused", none, none, none⟩).result
        = HResult.resp 500 (RespBody.err "File not found after download") :=
  ⟨by decide, by decide, rfl, by decide,
   (c2_missing_file_download_error [("url", "x")] "x" songPath
      (fun _ => Except.ok songPath) [] [] authOkEnv emptyDrive
      (Except.error "unused") none none none
      (by decide) (by decide) rfl (by decide)).1⟩

/-- C10: when the parsed body has no `get` method (the JSON literal `null`,
modelled as `body = none`), line 72 raises before and outside the try/except:
the outcome is an unhandled error, not any `HResult.resp` — in particular the
documented 400 validation response is never produced for such a request. -/
theorem c10_null_body_unhandled
    (extract : String → Except String Path)
    (fs0 dw : List Path) (auth : AuthEnv) (drive : DriveState)
    (up : Except String DriveResp) (perm : Option String)
    (r1 r2 : Option RemoveErr) :
    (video_to_drive ⟨none, extract, fs0, dw, auth, drive, up, perm, r1, r2⟩).result
      = HResult.unhandled "AttributeError: NoneType object has no attribute get" := by
  simp [video_to_drive]

/-- C10 witness: the theorem applied to one concrete environment. -/
theorem c10_null_body_unhandled_witness :
    (video_to_drive ⟨none, fun _ => Except.error "unused", [], [], authOkEnv,
        emptyDrive, Except.error "unused", none, none, none⟩).result
      = HResult.unhandled "AttributeError: NoneType object has no attribute get" :=
  c10_null_body_unhandled (fun _ => Except.error "unused") [] [] authOkEnv
    emptyDrive (Except.error "unused") none none none

/-- C7: folder resolution is idempotent.  When a non-trashed folder with the
requested name exists, `get_or_create_folder` returns the first match's id and
leaves the provider state unchanged, so a second call with the same name
returns the same id and again changes nothing; when no match exists, it
creates exactly one new folder with that name and returns its fresh id. -/
theorem c7_folder_resolution_idempotent (s : DriveState) (n : String) :
    (∀ f, findFolder s n = some f →
        (get_or_create_folder s n).1 = f.id ∧
        (get_or_create_folder s n).2.1 = s ∧
        (get_or_create_folder ((get_or_create_folder s n).2.1) n).1
          = (get_or_create_folder s n).1 ∧
        (get_or_create_folder ((get_or_create_folder s n).2.1) n).2.1 = s) ∧
    (findFolder s n = none →
        (get_or_create_folder s n).1 = s.nextId ∧
        (get_or_create_folder s n).2.1.folders
          = s.folders ++ [{ id := s.nextId, name := n, trashed := false }]) := by
  constructor
  · intro f hf
    simp [get_or_create_folder, hf]
  · intro hnone
    simp [get_or_create_folder, hnone]

/-- An existing non-trashed "YouTubeSong" folder with id 7. -/
def ytFolder : Folder := { id := 7, name := "YouTubeSong", trashed := false }

/-- A provider state already holding `ytFolder`. -/
def oneFolderDrive : DriveState := { folders := [ytFolder], nextId := 8, objects := [] }

/-- C7 witness: with one existing folder "YouTubeSong" (id 7), resolution
returns 7 and creates nothing. -/
theorem c7_folder_resolution_idempotent_witness :
    findFolder oneFolderDrive "YouTubeSong" = some ytFolder ∧
      (get_or_create_folder oneFolderDrive "YouTubeSong").1 = 7 :=
  ⟨by decide,
   ((c7_folder_resolution_idempotent oneFolderDrive "YouTubeSong").1 ytFolder (by decide)).1⟩

/-- C8: the filename normalization of lines 90-91 always yields a path ending
in ".mp4" — hence the path handed to the upload, and the returned
`file_name` (its basename), end in ".mp4" — and a filename that already ends
in ".mp4" is left unchanged. -/
theorem c8_extension_normalized (raw : Path) :
    pyEndsWith (normalizeFilename raw) mp4Ext = true ∧
      (pyEndsWith raw mp4Ext = true → normalizeFilename raw = raw) ∧
      pyEndsWith (basename (normalizeFilename raw)) mp4Ext = true := by
  refine ⟨normalizeFilename_endsWith raw, ?_, basename_normalizeFilename_endsWith raw⟩
  intro h
  simp [normalizeFilename, h]

/-- C8 witness: "downloads/song.webm" is rewritten to "downloads/song.mp4",
while "song.mp4" (which already ends in ".mp4") is left unchanged. -/
theorem c8_extension_normalized_witness :
    pyEndsWith (normalizeFilename
        ['d', 'o', 'w', 'n', '/', 's', 'o', 'n', 'g', '.', 'w', 'e', 'b', 'm'])
        mp4Ext = true ∧
      pyEndsWith songPath mp4Ext = true ∧
      normalizeFilename songPath = songPath :=
  ⟨(c8_extension_normalized
      ['d', 'o', 'w', 'n', '/', 's', 'o', 'n', 'g', '.', 'w', 'e', 'b', 'm']).1,
   by decide,
   (c8_extension_normalized songPath).2.1 (by decide)⟩

/-- An expired, invalid credential carrying a refresh token. -/
def staleCred : Cred := { valid := false, expired := true, refresh_token := true }

/-- An auth oracle with a stale cached credential whose refresh raises, while a
bootstrap secret is present and the interactive flow would succeed — the
configuration under which the claimed fall-through would be observable. -/
def staleAuthEnv : AuthEnv :=
  { tokenPickle := some staleCred,
    googleCredentials := some "client-config-blob",
    refreshResult := Except.error "refresh failed",
    flowResult := Except.ok { valid := true, expired := false, refresh_token := true } }

/-- C4 counterexample: with a cached expired credential carrying a refresh
token whose refresh raises, `get_gdrive_service` propagates the refresh
failure; it never reads the bootstrap secret and never runs the interactive
flow, even though both are available — contradicting the claimed fall-through
to re-acquisition. -/
theorem c4_counterexample_no_fallthrough :
    (get_gdrive_service staleAuthEnv).service = Except.error "refresh failed" ∧
      Effect.readBootstrapSecret ∉ (get_gdrive_service staleAuthEnv).trace ∧
      Effect.runFlow ∉ (get_gdrive_service staleAuthEnv).trace :=
  ⟨rfl, by decide, by decide⟩

/-- C4 (amended): for every cached credential that exists, is expired (and
invalid) and carries a refresh token, a refresh is attempted; if the refresh
succeeds the refreshed credential is persisted to token.pickle and returned;
if the refresh raises, the exception propagates out of `get_gdrive_service`
(no re-acquisition via the bootstrap secret or interactive flow is tried, and
the cache file is left as it was). -/
theorem c4_amended_refresh_propagates (a : AuthEnv) (c : Cred)
    (h1 : a.tokenPickle = some c) (h2 : c.valid = false)
    (h3 : c.expired = true) (h4 : c.refresh_token = true) :
    (∀ c2, a.refreshResult = Except.ok c2 →
        get_gdrive_service a
          = { service := Except.ok c2, tokenFile := some c2,
              trace := [Effect.refreshCred, Effect.persistToken] }) ∧
      (∀ e, a.refreshResult = Except.error e →
        get_gdrive_service a
          = { service := Except.error e, tokenFile := some c,
              trace := [Effect.refreshCred] }) := by
  constructor
  · intro c2 hr
    simp [get_gdrive_service, h1, h2, h3, h4, hr]
  · intro e hr
    simp [get_gdrive_service, h1, h2, h3, h4, hr]

/-- C4 witness: `staleAuthEnv` satisfies every hypothesis and its failing
refresh produces exactly the propagated error with a refresh-only trace. -/
theorem c4_amended_refresh_propagates_witness :
    staleAuthEnv.tokenPickle = some staleCred ∧ staleCred.valid = false ∧
      staleCred.expired = true ∧ staleCred.refresh_token = true ∧
      get_gdrive_service staleAuthEnv
        = { service := Except.error "refresh failed", tokenFile := some staleCred,
            trace := [Effect.refreshCred] } :=
  ⟨rfl, rfl, rfl, rfl,
   (c4_amended_refresh_propagates staleAuthEnv staleCred rfl rfl rfl rfl).2
      "refresh failed" rfl⟩

/-- The Python condition of line 35 fails and the credential is not usable:
no cache file, or a cached credential that is invalid and not
expired-with-refresh-token. -/
def noUsableCred (tp : Option Cred) : Prop :=
  tp = none ∨ ∃ c, tp = some c ∧ c.valid = false ∧ (c.expired && c.refresh_token) = false

/-- C5: when the request reaches authentication with no valid or refreshable
cached credential and `GOOGLE_CREDENTIALS` unset, credential acquisition
raises the missing-bootstrap-secret error, the request returns HTTP 500 with
that message, the provider state is untouched, and the trace shows no folder
lookup/creation and no upload — only the extraction call and the environment
read. -/
theorem c5_missing_bootstrap_500_before_folder
    (data : List (String × String)) (u : String) (raw : Path)
    (extract : String → Except String Path)
    (fs0 dw : List Path) (auth : AuthEnv) (drive : DriveState)
    (up : Except String DriveResp) (perm : Option String)
    (r1 r2 : Option RemoveErr)
    (hu : pyGet data "url" = some u) (hne : (u == "") = false)
    (hext : extract u = Except.ok raw)
    (hmem : normalizeFilename raw ∈ fs0 ++ dw)
    (hcred : noUsableCred auth.tokenPickle)
    (henv : auth.googleCredentials = none) :
    (video_to_drive ⟨some data, extract, fs0, dw, auth, drive, up, perm, r1, r2⟩).result
        = HResult.resp 500
            (RespBody.err "❌ GOOGLE_CREDENTIALS not found in environment variables") ∧
      (video_to_drive ⟨some data, extract, fs0, dw, auth, drive, up, perm, r1, r2⟩).trace
        = [Effect.extractInfo u, Effect.readBootstrapSecret] ∧
      (video_to_drive ⟨some data, extract, fs0, dw, auth, drive, up, perm, r1, r2⟩).drive
        = drive := by
  have hserv : get_gdrive_service auth
      = { service := Except.error "❌ GOOGLE_CREDENTIALS not found in environment variables",
          tokenFile := auth.tokenPickle, trace := [Effect.readBootstrapSecret] } := by
    rcases hcred with h | ⟨c, hc, hv, hrf⟩
    · simp [get_gdrive_service, h, acquire, henv]
    · simp [get_gdrive_service, hc, hv, hrf, acquire, henv]
  simp [video_to_drive, hu, strFalsy, hne, hext, hmem, hserv]

/-- An auth oracle with no cache file and no bootstrap secret. -/
def coldAuthEnv : AuthEnv :=
  { tokenPickle := none, googleCredentials := none,
    refreshResult := Except.error "unused", flowResult := Except.error "unused" }

/-- C5 witness: a request whose download succeeded but whose auth environment
is `coldAuthEnv` gets the 500 missing-secret response with no folder or upload
effect in its trace. -/
theorem c5_missing_bootstrap_500_before_folder_witness :
    noUsableCred coldAuthEnv.tokenPickle ∧
      coldAuthEnv.googleCredentials = none ∧
      (video_to_drive ⟨some [("url", "x")], fun _ => Except.ok songPath, [songPath], [],
          coldAuthEnv, emptyDrive, Except.error "unused", none, none, none⟩).trace
        = [Effect.extractInfo "x", Effect.readBootstrapSecret] :=
  ⟨Or.inl rfl, rfl,
   (c5_missing_bootstrap_500_before_folder [("url", "x")] "x" songPath
      (fun _ => Except.ok songPath) [songPath] [] coldAuthEnv emptyDrive
      (Except.error "unused") none none none
      (by decide) (by decide) rfl (by decide) (Or.inl rfl) rfl).2.1⟩

/-- C9: when the upload completes but the separate make-public permission call
raises, the handler returns HTTP 500 with that error, while the final provider
state still contains exactly the created remote object appended to the folder
resolution's state — no deletion or rollback of remote state happens on this
path. -/
theorem c9_permission_failure_no_rollback
    (data : List (String × String)) (u : String) (raw : Path)
    (extract : String → Except String Path)
    (fs0 dw : List Path) (auth : AuthEnv) (drive : DriveState) (c : Cred)
    (r : DriveResp) (pe : String) (r1 r2 : Option RemoveErr)
    (hu : pyGet data "url" = some u) (hne : (u == "") = false)
    (hext : extract u = Except.ok raw)
    (hmem : normalizeFilename raw ∈ fs0 ++ dw)
    (hauth : (get_gdrive_service auth).service = Except.ok c) :
    (video_to_drive ⟨some data, extract, fs0, dw, auth, drive, Except.ok r, some pe,
          r1, r2⟩).result
        = HResult.resp 500 (RespBody.err pe) ∧
      (video_to_drive ⟨some data, extract, fs0, dw, auth, drive, Except.ok r, some pe,
          r1, r2⟩).drive.objects
        = (get_or_create_folder drive "YouTubeSong").2.1.objects ++
            [{ id := r.id, name := basename (normalizeFilename raw),
               parent := (get_or_create_folder drive "YouTubeSong").1 }] ∧
      ({ id := r.id, name := basename (normalizeFilename raw),
         parent := (get_or_create_folder drive "YouTubeSong").1 : RemoteObj }
        ∈ (video_to_drive ⟨some data, extract, fs0, dw, auth, drive, Except.ok r, some pe,
            r1, r2⟩).drive.objects) := by
  refine ⟨?_, ?_, ?_⟩ <;> simp [video_to_drive, hu, strFalsy, hne, hext, hmem, hauth]

/-- C9 witness: a fully-mocked request whose permission step raises
"perm denied" answers 500 and leaves the uploaded object in the provider
state. -/
theorem c9_permission_failure_no_rollback_witness :
    pyGet [("url", "x")] "url" = some "x" ∧
      (get_gdrive_service authOkEnv).service
        = Except.ok { valid := true, expired := false, refresh_token := false } ∧
      (video_to_drive ⟨some [("url", "x")], fun _ => Except.ok songPath, [songPath], [],
          authOkEnv, emptyDrive, Except.ok { id := "fid", webViewLink := "link" },
          some "perm denied", none, none⟩).result
        = HResult.resp 500 (RespBody.err "perm denied") :=
  ⟨by decide, rfl,
   (c9_permission_failure_no_rollback [("url", "x")] "x" songPath
      (fun _ => Except.ok songPath) [songPath] [] authOkEnv emptyDrive
      { valid := true, expired := false, refresh_token := false }
      { id := "fid", webViewLink := "link" } "perm denied" none none
      (by decide) (by decide) rfl (by decide) rfl).1⟩

/-- C6: when the request reaches cleanup and the first `os.remove` raises a
`PermissionError`, the trace shows the handler slept exactly 2 time-units and
retried the deletion exactly once (two remove attempts in total, with nothing
else between them); if the retry succeeds the 200 success response is
produced, and if the retry raises again that exception propagates to the outer
handler, producing HTTP 500 with its message instead of the success
response. -/
theorem c6_cleanup_retry_once
    (data : List (String × String)) (u : String) (raw : Path)
    (extract : String → Except String Path)
    (fs0 dw : List Path) (auth : AuthEnv) (drive : DriveState) (c : Cred)
    (r : DriveResp) (pm : String) (r2 : Option RemoveErr)
    (hu : pyGet data "url" = some u) (hne : (u == "") = false)
    (hext : extract u = Except.ok raw)
    (hmem : normalizeFilename raw ∈ fs0 ++ dw)
    (hauth : (get_gdrive_service auth).service = Except.ok c) :
    (video_to_drive ⟨some data, extract, fs0, dw, auth, drive, Except.ok r, none,
          some (RemoveErr.perm pm), r2⟩).trace
        = Effect.extractInfo u :: (get_gdrive_service auth).trace ++
            (get_or_create_folder drive "YouTubeSong").2.2 ++
            [Effect.uploadCreate (basename (normalizeFilename raw))
                (get_or_create_folder drive "YouTubeSong").1,
             Effect.permissionCreate r.id,
             Effect.removeLocal (normalizeFilename raw),
             Effect.sleep 2,
             Effect.removeLocal (normalizeFilename raw)] ∧
      (r2 = none →
        (video_to_drive ⟨some data, extract, fs0, dw, auth, drive, Except.ok r, none,
            some (RemoveErr.perm pm), r2⟩).result
          = HResult.resp 200 (successBody r (normalizeFilename raw))) ∧
      (∀ e2, r2 = some e2 →
        (video_to_drive ⟨some data, extract, fs0, dw, auth, drive, Except.ok r, none,
            some (RemoveErr.perm pm), r2⟩).result
          = HResult.resp 500 (RespBody.err (removeMsg e2))) := by
  refine ⟨?_, ?_, ?_⟩
  · cases r2 <;> simp [video_to_drive, hu, strFalsy, hne, hext, hmem, hauth]
  · intro h
    subst h
    simp [video_to_drive, hu, strFalsy, hne, hext, hmem, hauth]
  · intro e2 h
    subst h
    simp [video_to_drive, hu, strFalsy, hne, hext, hmem, hauth]

/-- C6 witness: with a locked file whose retry also fails ("still locked"),
the request answers 500 with that message; the hypotheses are discharged on
the same fully-mocked request as C9's. -/
theorem c6_cleanup_retry_once_witness :
    pyGet [("url", "x")] "url" = some "x" ∧
      (video_to_drive ⟨some [("url", "x")], fun _ => Except.ok songPath, [songPath], [],
          authOkEnv, emptyDrive, Except.ok { id := "fid", webViewLink := "link" },
          none, some (RemoveErr.perm "locked"),
          some (RemoveErr.other "still locked")⟩).result
        = HResult.resp 500 (RespBody.err "still locked") :=
  ⟨by decide,
   (c6_cleanup_retry_once [("url", "x")] "x" songPath
      (fun _ => Except.ok songPath) [songPath] [] authOkEnv emptyDrive
      { valid := true, expired := false, refresh_token := false }
      { id := "fid", webViewLink := "link" } "locked"
      (some (RemoveErr.other "still locked"))
      (by decide) (by decide) rfl (by decide) rfl).2.2
      (RemoveErr.other "still locked") rfl⟩

/-- A fully-mocked request whose chunked upload raises. -/
def uploadFailEnv : ReqEnv :=
  { body := some [("url", "x")], extract := fun _ => Except.ok songPath,
    fs0 := [songPath], downloadWrites := [], auth := authOkEnv, drive := emptyDrive,
    uploadOutcome := Except.error "upload failed", permissionOutcome := none,
    remove1 := none, remove2 := none }

/-- C3 counterexample: a request whose upload attempt resolves as a failure
answers 500 while the downloaded file is still on disk and no `os.remove` was
ever attempted — the cleanup of lines 136-144 is unreachable from the failure
path, contradicting "whether it succeeds or fails ... the local downloaded
file is deleted before the HTTP response". -/
theorem c3_counterexample_failed_upload_keeps_file :
    (video_to_drive uploadFailEnv).result = HResult.resp 500 (RespBody.err "upload failed") ∧
      songPath ∈ (video_to_drive uploadFailEnv).fs ∧
      (video_to_drive uploadFailEnv).trace
        = [Effect.extractInfo "x", Effect.folderList "YouTubeSong",
           Effect.folderCreate "YouTubeSong", Effect.uploadCreate songPath 0] := by
  refine ⟨rfl, by decide, rfl⟩

/-- C3 (amended): the local file is deleted only when the whole
upload-and-make-public sequence succeeds.  After every successful (HTTP 200)
request the downloaded file no longer exists on disk; for every failed
request (any non-200 response) the filesystem is exactly what it was before
the request, or before plus what the extraction tool wrote — no deletion took
place. -/
theorem c3_amended_deleted_only_on_success
    (body : List (String × String)) (extract : String → Except String Path)
    (fs0 dw : List Path) (auth : AuthEnv) (drive : DriveState)
    (up : Except String DriveResp) (perm : Option String)
    (r1 r2 : Option RemoveErr) :
    (∀ b f,
        (video_to_drive ⟨some body, extract, fs0, dw, auth, drive, up, perm, r1, r2⟩).result
            = HResult.resp 200 b →
        downloadedPath ⟨some body, extract, fs0, dw, auth, drive, up, perm, r1, r2⟩
            = some f →
        f ∉ (video_to_drive ⟨some body, extract, fs0, dw, auth, drive, up, perm, r1, r2⟩).fs) ∧
      (∀ st b, st ≠ 200 →
        (video_to_drive ⟨some body, extract, fs0, dw, auth, drive, up, perm, r1, r2⟩).result
            = HResult.resp st b →
        (video_to_drive ⟨some body, extract, fs0, dw, auth, drive, up, perm, r1, r2⟩).fs
            = fs0 ∨
          (video_to_drive ⟨some body, extract, fs0, dw, auth, drive, up, perm, r1, r2⟩).fs
            = fs0 ++ dw) := by
  constructor
  · intro b f h200 hf
    cases hfal : strFalsy (pyGet body "url") with
    | true => simp [video_to_drive, hfal] at h200
    | false =>
        cases hext : extract ((pyGet body "url").getD "") with
        | error e => simp [video_to_drive, hfal, hext] at h200
        | ok raw =>
            have hf2 : f = normalizeFilename raw := by
              simp [downloadedPath, hfal, hext] at hf
              exact hf.symm
            subst hf2
            by_cases hmem : normalizeFilename raw ∈ fs0 ++ dw
            · cases hserv : (get_gdrive_service auth).service with
              | error e => simp [video_to_drive, hfal, hext, hmem, hserv] at h200
              | ok c =>
                  cases up with
                  | error e => simp [video_to_drive, hfal, hext, hmem, hserv] at h200
                  | ok r =>
                      cases perm with
                      | some pe => simp [video_to_drive, hfal, hext, hmem, hserv] at h200
                      | none =>
                          cases r1 with
                          | none =>
                              simp [video_to_drive, hfal, hext, hmem, hserv,
                                List.mem_filter]
                          | some e1 =>
                              cases e1 with
                              | perm pm =>
                                  cases r2 with
                                  | none =>
                                      simp [video_to_drive, hfal, hext, hmem, hserv,
                                        List.mem_filter]
                                  | some e2 =>
                                      simp [video_to_drive, hfal, hext, hmem, hserv]
                                        at h200
                              | other m =>
                                  simp [video_to_drive, hfal, hext, hmem, hserv] at h200
            · simp [video_to_drive, hfal, hext, hmem] at h200
  · intro st b hstne h200
    cases hfal : strFalsy (pyGet body "url") with
    | true => left; simp [video_to_drive, hfal]
    | false =>
        cases hext : extract ((pyGet body "url").getD "") with
        | error e => right; simp [video_to_drive, hfal, hext]
        | ok raw =>
            by_cases hmem : normalizeFilename raw ∈ fs0 ++ dw
            · cases hserv : (get_gdrive_service auth).service with
              | error e => right; simp [video_to_drive, hfal, hext, hmem, hserv]
              | ok c =>
                  cases up with
                  | error e => right; simp [video_to_drive, hfal, hext, hmem, hserv]
                  | ok r =>
                      cases perm with
                      | some pe => right; simp [video_to_drive, hfal, hext, hmem, hserv]
                      | none =>
                          cases r1 with
                          | none =>
                              simp [video_to_drive, hfal, hext, hmem, hserv,
                                Ne.symm hstne] at h200
                          | some e1 =>
                              cases e1 with
                              | perm pm =>
                                  cases r2 with
                                  | none =>
                                      simp [video_to_drive, hfal, hext, hmem, hserv,
                                        Ne.symm hstne] at h200
                                  | some e2 =>
                                      right
                                      simp [video_to_drive, hfal, hext, hmem, hserv]
                              | other m =>
                                  right
                                  simp [video_to_drive, hfal, hext, hmem, hserv]
            · right; simp [video_to_drive, hfal, hext, hmem]

/-- A fully-mocked request in which everything succeeds. -/
def successEnv : ReqEnv :=
  { body := some [("url", "x")], extract := fun _ => Except.ok songPath,
    fs0 := [songPath], downloadWrites := [], auth := authOkEnv, drive := emptyDrive,
    uploadOutcome := Except.ok { id := "fid", webViewLink := "link" },
    permissionOutcome := none, remove1 := none, remove2 := none }

/-- C3 witness: the fully successful mocked request answers 200 and its
downloaded file "song.mp4" is no longer on disk afterwards. -/
theorem c3_amended_deleted_only_on_success_witness :
    (video_to_drive successEnv).result
        = HResult.resp 200 (RespBody.ok "fid" songPath "link") ∧
      downloadedPath successEnv = some songPath ∧
      songPath ∉ (video_to_drive successEnv).fs :=
  ⟨rfl, rfl,
   (c3_amended_deleted_only_on_success [("url", "x")] (fun _ => Except.ok songPath)
      [songPath] [] authOkEnv emptyDrive
      (Except.ok { id := "fid", webViewLink := "link" }) none none none).1
      (RespBody.ok "fid" songPath "link") songPath rfl rfl⟩

end ExtBackend
